import Mathlib

/-!
Shallow embedding of `src/gps.py` (Saone777/gps_vechile_locator): a simpy-based
toll-road simulation. Vehicles advance along a fixed route, are charged a toll
for every toll zone containing their current position, and halt after being
stationary at their final waypoint for 5 ticks. Money and coordinates are
modelled as exact rationals (the Python source uses floats); the geodesic
distance function is an opaque parameter `calc_dist` since its value never
matters to the properties below, only where it is applied.
-/

namespace GPS

/-- A coordinate is a (latitude, longitude) pair, as the `(lat, lon)` tuples of
the source. -/
abbrev Coord : Type := ℚ × ℚ

/-- Constant `TOLL_RATE_PER_KM = 0.05 * 82` (gps.py line 10). -/
def TOLL_RATE_PER_KM : ℚ := (0.05 : ℚ) * 82

/-- Constant `FIXED_TOLL_FEE = 2.00 * 82` (gps.py line 11). -/
def FIXED_TOLL_FEE : ℚ := (2 : ℚ) * 82

/-- Constant `DYNAMIC_PRICING_RATE = 0.02 * 82` (gps.py line 12). -/
def DYNAMIC_PRICING_RATE : ℚ := (0.02 : ℚ) * 82

/-- Constant `CONGESTION_THRESHOLD = 10` (gps.py line 13). -/
def CONGESTION_THRESHOLD : ℚ := 10

/-- Time-of-day classification used by the pricing policy. -/
inductive TimeSlot
  | peak
  | off_peak
  deriving DecidableEq

/-- Dictionary `TIME_SLOT_RATE` (gps.py lines 14-17): `peak ↦ 0.03 * 82`,
`off_peak ↦ 0.01 * 82`. -/
def TIME_SLOT_RATE : TimeSlot → ℚ
  | .peak => (0.03 : ℚ) * 82
  | .off_peak => (0.01 : ℚ) * 82

/-- Function `get_time_slot` (gps.py lines 43-48) with the wall-clock hour read
`datetime.now().hour` passed in as an argument: hours 7-9 and 17-19 are `peak`,
every other hour is `off_peak`. -/
def get_time_slot (current_hour : ℕ) : TimeSlot :=
  if (7 ≤ current_hour ∧ current_hour ≤ 9) ∨ (17 ≤ current_hour ∧ current_hour ≤ 19) then
    TimeSlot.peak
  else
    TimeSlot.off_peak

/-- Function `calculate_toll` (gps.py lines 113-119), with the ambient clock
read made explicit as the `current_hour` argument:
base charge `distance * TOLL_RATE_PER_KM + FIXED_TOLL_FEE`, plus the
time-slot surcharge `distance * TIME_SLOT_RATE[slot]`, plus, when
`distance > CONGESTION_THRESHOLD`, the congestion surcharge
`distance * DYNAMIC_PRICING_RATE`. -/
def calculate_toll (current_hour : ℕ) (distance : ℚ) : ℚ :=
  let toll := distance * TOLL_RATE_PER_KM + FIXED_TOLL_FEE
  let toll2 := toll + distance * TIME_SLOT_RATE (get_time_slot current_hour)
  if distance > CONGESTION_THRESHOLD then toll2 + distance * DYNAMIC_PRICING_RATE else toll2

/-- Class `UserAccount` (gps.py lines 97-101): `balance`, `vendor`, and the
payment history `payments` (initially empty), in the order they are assigned
in `__init__`. -/
structure UserAccount where
  balance : ℚ
  vendor : String
  payments : List ℚ
  deriving DecidableEq

/-- Method `UserAccount.deduct_toll` (gps.py lines 103-106): subtracts `amount`
from the balance, appends `amount` to `payments`, and returns the new balance
(second component). -/
def UserAccount.deduct_toll (acc : UserAccount) (amount : ℚ) : UserAccount × ℚ :=
  let b := acc.balance - amount
  ({ acc with balance := b, payments := acc.payments ++ [amount] }, b)

/-- Iterating `deduct_toll` over a list of amounts, keeping the mutated
account (the harness for the "applied n times" property). -/
def deductAll (acc : UserAccount) (amounts : List ℚ) : UserAccount :=
  amounts.foldl (fun a x => (a.deduct_toll x).1) acc

/-- A toll zone as built by `generate_toll_zones` (gps.py lines 29-36): the
disc `Point(lat, lon).buffer(radius)`, recorded by its center and radius. -/
structure TollZone where
  center : Coord
  radius : ℚ
  deriving DecidableEq

/-- The membership test the source applies at gps.py line 85,
`toll_zone.contains(Point(self.position))`, on the buffered disc: shapely's
`contains` holds exactly when the point lies in the interior of the region, so
it is the strict inequality `dist(center, p) < radius` (in the planar
lat/lon coordinates shapely works in); points of the boundary are excluded. -/
def TollZone.containsPt (z : TollZone) (p : Coord) : Bool :=
  decide ((p.1 - z.center.1) ^ 2 + (p.2 - z.center.2) ^ 2 < z.radius ^ 2)

theorem deductAll_spec (acc : UserAccount) (amounts : List ℚ) :
    (deductAll acc amounts).balance = acc.balance - amounts.sum ∧
    (deductAll acc amounts).payments = acc.payments ++ amounts ∧
    (deductAll acc amounts).vendor = acc.vendor := by
  induction amounts generalizing acc with
  | nil => simp [deductAll]
  | cons a rest ih =>
    have h := ih ((acc.deduct_toll a).1)
    simp only [deductAll, List.foldl_cons] at h ⊢
    refine ⟨?_, ?_, ?_⟩
    · rw [h.1]
      simp [UserAccount.deduct_toll, List.sum_cons]
      ring
    · rw [h.2.1]
      simp [UserAccount.deduct_toll]
    · rw [h.2.2]
      rfl

/-- C3: starting from balance `b` and an empty payment history, applying
`deduct_toll` with amounts `a1..an` in order leaves the balance equal to
`b - (a1 + ... + an)`, leaves the payments list equal to `[a1, ..., an]` in
order, and every individual call returns the account's new balance. -/
theorem deduct_toll_sequence (b : ℚ) (vendor : String) (amounts : List ℚ) :
    (deductAll ⟨b, vendor, []⟩ amounts).balance = b - amounts.sum ∧
    (deductAll ⟨b, vendor, []⟩ amounts).payments = amounts ∧
    ∀ (acc : UserAccount) (a : ℚ), (acc.deduct_toll a).2 = (acc.deduct_toll a).1.balance := by
  have h := deductAll_spec ⟨b, vendor, []⟩ amounts
  exact ⟨h.1, by simpa using h.2.1, fun acc a => rfl⟩

/-- C10: `deduct_toll` mutates only `balance` and `payments`: the vendor is
unchanged, the payments list is extended by exactly the single element
`amount` at its end (all earlier payments and their order preserved), and the
balance becomes `balance - amount`. -/
theorem deduct_toll_frame (acc : UserAccount) (amount : ℚ) :
    (acc.deduct_toll amount).1.vendor = acc.vendor ∧
    (acc.deduct_toll amount).1.payments = acc.payments ++ [amount] ∧
    (acc.deduct_toll amount).1.balance = acc.balance - amount :=
  ⟨rfl, rfl, rfl⟩

theorem TIME_SLOT_RATE_nonneg (slot : TimeSlot) : 0 ≤ TIME_SLOT_RATE slot := by
  cases slot <;> simp [TIME_SLOT_RATE] <;> norm_num

theorem calculate_toll_eq (current_hour : ℕ) (d : ℚ) :
    calculate_toll current_hour d =
      d * TOLL_RATE_PER_KM + FIXED_TOLL_FEE + d * TIME_SLOT_RATE (get_time_slot current_hour) +
        (if d > CONGESTION_THRESHOLD then d * DYNAMIC_PRICING_RATE else 0) := by
  simp only [calculate_toll]
  split <;> ring

/-- C4: for every non-negative distance `d` and every hour (hence every fixed
time-slot classification), `calculate_toll` returns at least the base charge
`d * TOLL_RATE_PER_KM + FIXED_TOLL_FEE`, which is itself non-negative: the
time-of-day and congestion surcharges are additive and non-negative. -/
theorem calculate_toll_ge_base (current_hour : ℕ) (d : ℚ) (hd : 0 ≤ d) :
    d * TOLL_RATE_PER_KM + FIXED_TOLL_FEE ≤ calculate_toll current_hour d ∧
    0 ≤ d * TOLL_RATE_PER_KM + FIXED_TOLL_FEE := by
  have hslot := TIME_SLOT_RATE_nonneg (get_time_slot current_hour)
  have hdyn : (0 : ℚ) ≤ DYNAMIC_PRICING_RATE := by norm_num [DYNAMIC_PRICING_RATE]
  have hrate : (0 : ℚ) ≤ TOLL_RATE_PER_KM := by norm_num [TOLL_RATE_PER_KM]
  have hfee : (0 : ℚ) ≤ FIXED_TOLL_FEE := by norm_num [FIXED_TOLL_FEE]
  rw [calculate_toll_eq]
  constructor
  · split
    · nlinarith
    · nlinarith
  · nlinarith

/-- C4 witness: instantiation of `calculate_toll_ge_base` at hour 12 and
distance 3. -/
theorem calculate_toll_ge_base_witness :
    (3 : ℚ) * TOLL_RATE_PER_KM + FIXED_TOLL_FEE ≤ calculate_toll 12 3 ∧
    0 ≤ (3 : ℚ) * TOLL_RATE_PER_KM + FIXED_TOLL_FEE :=
  calculate_toll_ge_base 12 3 (by norm_num)

/-- C5: for any fixed hour (hence fixed time-slot classification),
`calculate_toll` is monotonically non-decreasing in distance, including across
the `CONGESTION_THRESHOLD` boundary at which the congestion surcharge switches
on. -/
theorem calculate_toll_mono (current_hour : ℕ) (d1 d2 : ℚ) (h0 : 0 ≤ d1) (h12 : d1 ≤ d2) :
    calculate_toll current_hour d1 ≤ calculate_toll current_hour d2 := by
  have hslot := TIME_SLOT_RATE_nonneg (get_time_slot current_hour)
  have hrate : (0 : ℚ) < TOLL_RATE_PER_KM := by norm_num [TOLL_RATE_PER_KM]
  have hdyn : (0 : ℚ) < DYNAMIC_PRICING_RATE := by norm_num [DYNAMIC_PRICING_RATE]
  have hth : (0 : ℚ) < CONGESTION_THRESHOLD := by norm_num [CONGESTION_THRESHOLD]
  rw [calculate_toll_eq, calculate_toll_eq]
  split <;> split
  · nlinarith
  · linarith
  · nlinarith
  · nlinarith

/-- C5 witness: instantiation of `calculate_toll_mono` at hour 8 across the
congestion boundary, distances 9 and 11. -/
theorem calculate_toll_mono_witness : calculate_toll 8 9 ≤ calculate_toll 8 11 :=
  calculate_toll_mono 8 9 11 (by norm_num) (by norm_num)

/-- C7 counterexample: the zone of center `(0, 0)` and radius `1`, and the
point `(1, 0)` lying exactly on its boundary (squared distance equals squared
radius): the membership test of the source returns `false` there, so a
boundary point is NOT treated as inside the zone, contradicting the claim. -/
theorem containsPt_boundary_counterexample :
    (((1 : ℚ), (0 : ℚ)).1 - 0) ^ 2 + (((1 : ℚ), (0 : ℚ)).2 - 0) ^ 2 = (1 : ℚ) ^ 2 ∧
    TollZone.containsPt ⟨(0, 0), 1⟩ (1, 0) = false := by
  constructor
  · norm_num
  · simp only [TollZone.containsPt, decide_eq_false_iff_not]
    norm_num

/-- C7 amended: the membership test excludes the boundary: for every zone and
every point at squared planar distance exactly `radius ^ 2` from the center,
`containsPt` returns `false` (shapely `contains` is interior-only), so the
boundary-inclusion policy of the code treats boundary points as outside. -/
theorem containsPt_boundary_excluded (z : TollZone) (p : Coord)
    (hb : (p.1 - z.center.1) ^ 2 + (p.2 - z.center.2) ^ 2 = z.radius ^ 2) :
    z.containsPt p = false := by
  simp only [TollZone.containsPt, hb, decide_eq_false_iff_not]
  exact lt_irrefl _

/-- C7 amended witness: instantiation of `containsPt_boundary_excluded` at the
zone of center `(2, 3)` and radius `5`, and the boundary point `(5, 7)`. -/
theorem containsPt_boundary_excluded_witness :
    TollZone.containsPt ⟨(2, 3), 5⟩ (5, 7) = false :=
  containsPt_boundary_excluded ⟨(2, 3), 5⟩ (5, 7) (by norm_num)

/-- Status of a vehicle's `run()` generator (gps.py lines 64-81): `TRAVELING`
while waypoints remain and the stationary guard has not fired,
`HALTED_CONTINGENCY` after the `stationary_time >= 5` break at line 66-68,
`COMPLETED` after the `for` loop exhausts the route. -/
inductive VState
  | TRAVELING
  | HALTED_CONTINGENCY
  | COMPLETED
  deriving DecidableEq

/-- The simpy environment as far as the source observes it: the current tick
`now` (`env.now`) and the list of registered processes (`env.process(...)`
calls), tracked by the id of the vehicle whose `run()` generator was
registered. -/
structure SimEnv where
  now : ℕ
  procs : List String
  deriving DecidableEq

/-- One `env.process(...)` registration. -/
def SimEnv.addProcess (env : SimEnv) (vid : String) : SimEnv :=
  { env with procs := env.procs ++ [vid] }

/-- The mutable state of one `Vehicle` object (gps.py lines 52-62) together
with the loop cursor of its `run()` generator: `idx` is the index of the next
waypoint the `for position in self.route` loop will process, `vstate` the
generator's status. `envNow` is the current time of the vehicle's environment
(`self.env.now`; in `main` every vehicle shares the single environment) and
`scheduledAt` the time at which its `run()` process was registered. -/
structure VehicleSim where
  vehicle_id : String
  start : Coord
  end_ : Coord
  position : Coord
  toll_zones : List TollZone
  route : List Coord
  idx : ℕ
  stationary_time : ℕ
  account : UserAccount
  vstate : VState
  envNow : ℕ
  scheduledAt : ℕ
  deriving DecidableEq

/-- Method `Vehicle.check_toll_zone` (gps.py lines 83-89): for every zone of
`self.toll_zones`, in order, if the zone contains the current position, deduct
`calculate_toll(calculate_distance(self.start, self.position))` from the
account. The geodesic `calculate_distance` (line 109-110) is the opaque
parameter `calc_dist`; the ambient clock read inside `calculate_toll` is the
`current_hour` parameter. -/
def VehicleSim.check_toll_zone (calc_dist : Coord → Coord → ℚ) (current_hour : ℕ)
    (v : VehicleSim) : VehicleSim :=
  { v with
    account := v.toll_zones.foldl
      (fun a z =>
        if z.containsPt v.position then
          (a.deduct_toll (calculate_toll current_hour (calc_dist v.start v.position))).1
        else a)
      v.account }

/-- One iteration of the `run()` generator (gps.py lines 64-81), i.e. one
advance of the vehicle's process: a finished generator (halted or completed)
does nothing; otherwise, if the route is exhausted the generator completes; if
`stationary_time >= 5` the contingency break fires; otherwise the vehicle
moves to the next waypoint, runs the zone check (debiting its account), and
after the yield increments `stationary_time` when the position equals the last
waypoint, resetting it to 0 otherwise. The `check_speed_limit` call and the
random extra congestion yield only print or delay and change none of the state
modelled here. -/
def VehicleSim.step (calc_dist : Coord → Coord → ℚ) (current_hour : ℕ)
    (v : VehicleSim) : VehicleSim :=
  if v.vstate ≠ VState.TRAVELING then v
  else
    match v.route.get? v.idx with
    | none => { v with vstate := VState.COMPLETED }
    | some pos =>
      if 5 ≤ v.stationary_time then { v with vstate := VState.HALTED_CONTINGENCY }
      else
        let v2 := VehicleSim.check_toll_zone calc_dist current_hour { v with position := pos }
        { v2 with
          stationary_time := if v2.route.getLast? = some pos then v2.stationary_time + 1 else 0,
          idx := v2.idx + 1 }

/-- The error the spec prescribes for an empty route at construction. -/
inductive VehicleError
  | InvalidRouteError
  deriving DecidableEq

/-- Body of `Vehicle.__init__` (gps.py lines 52-62): stores the constructor
arguments, sets `position` to `start` and `stationary_time` to 0, and
registers `self.run()` as a process on the environment (line 61,
`self.process = env.process(self.run())`). -/
def Vehicle.initOk (env : SimEnv) (vehicle_id : String) (start end_ : Coord)
    (account : UserAccount) (toll_zones : List TollZone) (route : List Coord) :
    SimEnv × VehicleSim :=
  (env.addProcess vehicle_id,
   { vehicle_id := vehicle_id, start := start, end_ := end_, position := start,
     toll_zones := toll_zones, route := route, idx := 0, stationary_time := 0,
     account := account, vstate := VState.TRAVELING, envNow := env.now,
     scheduledAt := env.now })

/-- `Vehicle.__init__` as a fallible constructor: the source performs no
validation at all (in particular it never inspects `route`), so construction
always succeeds; `VehicleError` is the error type the spec prescribes but the
code never raises. -/
def Vehicle.init (env : SimEnv) (vehicle_id : String) (start end_ : Coord)
    (account : UserAccount) (toll_zones : List TollZone) (route : List Coord) :
    Except VehicleError (SimEnv × VehicleSim) :=
  Except.ok (Vehicle.initOk env vehicle_id start end_ account toll_zones route)

/-- Function `setup_environment` (gps.py lines 122-124): registers
`vehicle.run()` as a process for every vehicle of the list — a second
generator over the same vehicle object, in addition to the one
`Vehicle.__init__` already registered. -/
def setup_environment (env : SimEnv) (vehicles : List VehicleSim) : SimEnv :=
  vehicles.foldl (fun e v => e.addProcess v.vehicle_id) env

/-- Constructor arguments of one vehicle in `main`
(gps.py lines 168-172). -/
structure VehicleSpec where
  vehicle_id : String
  account : UserAccount
  route : List Coord

/-- The vehicle-creation loop of `main` (gps.py lines 168-172): each vehicle
is constructed with `start = route[0]`, `end = route[-1]`, its account, the
shared zone list and its route. -/
def createVehicles (zones : List TollZone) (env : SimEnv) :
    List VehicleSpec → SimEnv × List VehicleSim
  | [] => (env, [])
  | s :: rest =>
    let ev := Vehicle.initOk env s.vehicle_id (s.route.headD (0, 0)) (s.route.getLastD (0, 0))
      s.account zones s.route
    let tail := createVehicles zones ev.1 rest
    (tail.1, ev.2 :: tail.2)

/-- Function `query_vehicle_count` (gps.py lines 159-160): counts the vehicles
whose environment clock `vehicle.env.now` is at most `env.now`. -/
def query_vehicle_count (env : SimEnv) (vehicles : List VehicleSim) : ℕ :=
  (vehicles.filter fun v => decide (v.envNow ≤ env.now)).length

/-- Modelled from the spec's words for the C9 comparison: the number of
vehicles whose process has been scheduled at or before time `t`. -/
def scheduled_by (t : ℕ) (vehicles : List VehicleSim) : ℕ :=
  (vehicles.filter fun v => decide (v.scheduledAt ≤ t)).length

theorem setup_environment_procs (env : SimEnv) (vs : List VehicleSim) :
    (setup_environment env vs).procs = env.procs ++ vs.map VehicleSim.vehicle_id := by
  induction vs generalizing env with
  | nil => simp [setup_environment]
  | cons v rest ih =>
    simp only [setup_environment, List.foldl_cons, List.map_cons] at ih ⊢
    rw [ih]
    simp [SimEnv.addProcess]

theorem createVehicles_procs (zones : List TollZone) (env : SimEnv)
    (specs : List VehicleSpec) :
    (createVehicles zones env specs).1.procs
        = env.procs ++ specs.map VehicleSpec.vehicle_id ∧
    (createVehicles zones env specs).2.map VehicleSim.vehicle_id
        = specs.map VehicleSpec.vehicle_id := by
  induction specs generalizing env with
  | nil => simp [createVehicles]
  | cons s rest ih =>
    have h := ih (env.addProcess s.vehicle_id)
    simp only [createVehicles, Vehicle.initOk, List.map_cons]
    constructor
    · rw [h.1]
      simp [SimEnv.addProcess]
    · rw [h.2]

/-- In the setup `main` performs — construct the vehicles (each construction
registering one `run()` process) and then call `setup_environment`
(registering a second) — every vehicle id of the spec list appears twice in
the registered-process list. -/
theorem setup_after_init_registers_twice (zones : List TollZone) (env : SimEnv)
    (specs : List VehicleSpec) :
    (setup_environment (createVehicles zones env specs).1
        (createVehicles zones env specs).2).procs
      = env.procs ++ specs.map VehicleSpec.vehicle_id ++ specs.map VehicleSpec.vehicle_id := by
  rw [setup_environment_procs, (createVehicles_procs zones env specs).1,
    (createVehicles_procs zones env specs).2]

/-- C1: the claim fails on the code: after `main`'s setup with a single
vehicle `Vehicle_0`, the environment holds TWO registered `run()` processes
for that vehicle — one from `Vehicle.__init__` (gps.py line 61), one from
`setup_environment` (line 124) — so the vehicle's position, stationary
counter and ledger are advanced/charged by two processes per tick, not one. -/
theorem vehicle_process_double_registration :
    (setup_environment
        (createVehicles [] ⟨0, []⟩ [⟨"Vehicle_0", ⟨100, "Vendor_A", []⟩, [(1, 2)]⟩]).1
        (createVehicles [] ⟨0, []⟩ [⟨"Vehicle_0", ⟨100, "Vendor_A", []⟩, [(1, 2)]⟩]).2).procs
      = ["Vehicle_0", "Vehicle_0"] := rfl

theorem foldl_zone_deduct (zones : List TollZone) (p : Coord) (t : ℚ) (acc : UserAccount) :
    (zones.foldl (fun a z => if z.containsPt p then (a.deduct_toll t).1 else a) acc).payments
        = acc.payments ++ List.replicate (zones.filter fun z => z.containsPt p).length t ∧
    (zones.foldl (fun a z => if z.containsPt p then (a.deduct_toll t).1 else a) acc).balance
        = acc.balance - ((zones.filter fun z => z.containsPt p).length : ℚ) * t := by
  induction zones generalizing acc with
  | nil => simp
  | cons z rest ih =>
    by_cases hz : z.containsPt p
    · have h := ih (acc.deduct_toll t).1
      simp only [List.foldl_cons, List.filter_cons, hz, if_pos, List.length_cons] at h ⊢
      refine ⟨?_, ?_⟩
      · rw [h.1]
        simp [UserAccount.deduct_toll, List.replicate_succ]
      · rw [h.2]
        simp only [UserAccount.deduct_toll]
        push_cast
        ring
    · have h := ih acc
      simp only [List.foldl_cons, List.filter_cons, hz, if_neg, Bool.false_eq_true,
        not_false_eq_true] at h ⊢
      exact h

/-- C2: one run of the zone check at a given position appends to the payment
history exactly one debit per zone of the shared list that contains the
position — `k` debits for `k` overlapping containing zones, no debit for a
zone not containing the position — each of amount
`calculate_toll (calc_dist start position)`, the distance taken from the
route START to the current position; the balance drops by exactly the sum of
those debits. -/
theorem check_toll_zone_debits (calc_dist : Coord → Coord → ℚ) (current_hour : ℕ)
    (v : VehicleSim) :
    (v.check_toll_zone calc_dist current_hour).account.payments
        = v.account.payments ++
            List.replicate (v.toll_zones.filter fun z => z.containsPt v.position).length
              (calculate_toll current_hour (calc_dist v.start v.position)) ∧
    (v.check_toll_zone calc_dist current_hour).account.balance
        = v.account.balance -
            ((v.toll_zones.filter fun z => z.containsPt v.position).length : ℚ) *
              calculate_toll current_hour (calc_dist v.start v.position) :=
  foldl_zone_deduct v.toll_zones v.position
    (calculate_toll current_hour (calc_dist v.start v.position)) v.account

theorem step_of_halted (calc_dist : Coord → Coord → ℚ) (current_hour : ℕ)
    (v : VehicleSim) (h : v.vstate = VState.HALTED_CONTINGENCY) :
    VehicleSim.step calc_dist current_hour v = v := by
  simp [VehicleSim.step, h]

/-- C6: a traveling vehicle process whose `stationary_time` is at least 5 at
the start of a tick (with a waypoint still pending) transitions to the
terminal `HALTED_CONTINGENCY` state on that tick, and on it and every later
tick its position and its account (balance and payments) stay unchanged: no
further positional advance and no further debit. -/
theorem contingency_halt_permanent (calc_dist : Coord → Coord → ℚ) (current_hour : ℕ)
    (v : VehicleSim) (n : ℕ) (hT : v.vstate = VState.TRAVELING)
    (hst : 5 ≤ v.stationary_time) (hidx : v.idx < v.route.length) :
    ((VehicleSim.step calc_dist current_hour)^[n + 1] v).vstate = VState.HALTED_CONTINGENCY ∧
    ((VehicleSim.step calc_dist current_hour)^[n + 1] v).position = v.position ∧
    ((VehicleSim.step calc_dist current_hour)^[n + 1] v).account = v.account := by
  have hget : v.route[v.idx]? = some (v.route.get ⟨v.idx, hidx⟩) := by
    rw [List.getElem?_eq_getElem hidx]
    rfl
  have h1 : VehicleSim.step calc_dist current_hour v
      = { v with vstate := VState.HALTED_CONTINGENCY } := by
    simp [VehicleSim.step, hT, hget, hst]
  have h2 : (VehicleSim.step calc_dist current_hour)^[n]
        { v with vstate := VState.HALTED_CONTINGENCY }
      = { v with vstate := VState.HALTED_CONTINGENCY } :=
    Function.iterate_fixed (step_of_halted calc_dist current_hour _ rfl) n
  rw [Function.iterate_succ_apply, h1, h2]
  exact ⟨rfl, rfl, rfl⟩

/-- Concrete vehicle for the C6 witness: stationary counter already at 5,
one waypoint pending. -/
def haltWitnessVehicle : VehicleSim :=
  { vehicle_id := "Vehicle_0", start := ((13.5 : ℚ), (80.5 : ℚ)),
    end_ := ((13.5 : ℚ), (80.5 : ℚ)), position := ((13.5 : ℚ), (80.5 : ℚ)),
    toll_zones := [], route := [((13.5 : ℚ), (80.5 : ℚ))], idx := 0,
    stationary_time := 5, account := ⟨100, "Vendor_A", []⟩,
    vstate := VState.TRAVELING, envNow := 0, scheduledAt := 0 }

/-- C6 witness: instantiation of `contingency_halt_permanent` at
`haltWitnessVehicle`, three ticks ahead. -/
theorem contingency_halt_permanent_witness :
    ((VehicleSim.step (fun _ _ => 0) 12)^[3] haltWitnessVehicle).vstate
        = VState.HALTED_CONTINGENCY ∧
    ((VehicleSim.step (fun _ _ => 0) 12)^[3] haltWitnessVehicle).position
        = haltWitnessVehicle.position ∧
    ((VehicleSim.step (fun _ _ => 0) 12)^[3] haltWitnessVehicle).account
        = haltWitnessVehicle.account :=
  contingency_halt_permanent (fun _ _ => 0) 12 haltWitnessVehicle 2 rfl
    (by norm_num [haltWitnessVehicle]) (by norm_num [haltWitnessVehicle])

/-- C8 counterexample: constructing a vehicle with the empty route does NOT
raise: at this concrete input `Vehicle.__init__` succeeds, so no
`InvalidRouteError` is produced at construction time, contradicting the
claim. -/
theorem empty_route_no_error :
    Vehicle.init ⟨0, []⟩ "Vehicle_0" (0, 0) (0, 0) ⟨100, "Vendor_A", []⟩ [] []
      ≠ Except.error VehicleError.InvalidRouteError := by
  simp [Vehicle.init]

/-- C8 amended: `Vehicle.__init__` performs no route validation: for every
environment and every otherwise-valid combination of constructor arguments,
construction with an empty route succeeds (returns the constructed vehicle,
raising nothing), and the vehicle's process then completes on its very first
advance without moving the vehicle or debiting its account. -/
theorem empty_route_accepted (env : SimEnv) (vid : String) (s e : Coord)
    (acc : UserAccount) (zones : List TollZone) (calc_dist : Coord → Coord → ℚ)
    (current_hour : ℕ) :
    Vehicle.init env vid s e acc zones []
        = Except.ok (Vehicle.initOk env vid s e acc zones []) ∧
    ((Vehicle.initOk env vid s e acc zones []).2.step calc_dist current_hour).vstate
        = VState.COMPLETED ∧
    ((Vehicle.initOk env vid s e acc zones []).2.step calc_dist current_hour).position = s ∧
    ((Vehicle.initOk env vid s e acc zones []).2.step calc_dist current_hour).account = acc :=
  ⟨rfl, rfl, rfl, rfl⟩

/-- C9: when every vehicle of the list shares the queried environment (as in
`main`, where `vehicle.env` IS `env`) and every vehicle's process was
scheduled no later than the environment's current time (registration cannot
happen in the future), `query_vehicle_count` returns exactly the number of
vehicles whose process was scheduled at or before that time. -/
theorem query_vehicle_count_correct (env : SimEnv) (vehicles : List VehicleSim)
    (hshared : ∀ v ∈ vehicles, v.envNow = env.now)
    (hsched : ∀ v ∈ vehicles, v.scheduledAt ≤ env.now) :
    query_vehicle_count env vehicles = scheduled_by env.now vehicles := by
  unfold query_vehicle_count scheduled_by
  have h1 : (vehicles.filter fun v => decide (v.envNow ≤ env.now)) = vehicles :=
    List.filter_eq_self.mpr fun v hv => decide_eq_true (le_of_eq (hshared v hv))
  have h2 : (vehicles.filter fun v => decide (v.scheduledAt ≤ env.now)) = vehicles :=
    List.filter_eq_self.mpr fun v hv => decide_eq_true (hsched v hv)
  rw [h1, h2]

/-- Concrete vehicle for the C9 witness: shares the environment clock (3) and
was scheduled at time 0. -/
def queryWitnessVehicle : VehicleSim :=
  { vehicle_id := "Vehicle_0", start := (0, 0), end_ := (0, 0), position := (0, 0),
    toll_zones := [], route := [(0, 0)], idx := 0, stationary_time := 0,
    account := ⟨100, "Vendor_A", []⟩, vstate := VState.TRAVELING, envNow := 3,
    scheduledAt := 0 }

/-- C9 witness: instantiation of `query_vehicle_count_correct` at an
environment at time 3 holding one vehicle scheduled at time 0. -/
theorem query_vehicle_count_correct_witness :
    query_vehicle_count ⟨3, ["Vehicle_0"]⟩ [queryWitnessVehicle]
      = scheduled_by 3 [queryWitnessVehicle] :=
  query_vehicle_count_correct ⟨3, ["Vehicle_0"]⟩ [queryWitnessVehicle]
    (by intro v hv; simp only [List.mem_singleton] at hv; subst hv; rfl)
    (by intro v hv; simp only [List.mem_singleton] at hv; subst hv; norm_num [queryWitnessVehicle])

end GPS
